import Mathlib

/-!
Verification development for the baiduocr Go client library.

The library submits a JPEG (or PNG, converted on the fly) image to the Baidu
OCR web service and returns the recognized text fragments.  The source tree
carries two near-duplicate historical variants of `baiduocr.go`; the second
(current) variant adds a configurable request timeout.  This file gives a
shallow embedding of the pure logic of both variants: content-type sniffing
and dispatch (`ParseImage`), option application, request construction and
timeout resolution (`ParseJPEG`), response decoding, and the PNG-to-JPEG
normalization pipeline (`pngTojpeg`).

Conventions of the embedding:
* Go byte slices are `List Nat` (each element a byte value).
* Go's `color.Color` interface is represented by the quadruple its `RGBA()`
  method returns: alpha-premultiplied 16-bit channels (`GoColor`).
* Side-effecting steps (network, file I/O, the stdlib PNG decoder and JSON
  unmarshaller) are taken as parameters of the functions that use them, so
  that the library's own logic around them is fully explicit.
-/

namespace Baiduocr

/-! ### Response wire format

Go type `baiduOCRRet` (identical in both variants): a JSON object with an
`errMsg` string and a `retData` array of entries, each holding a recognized
`word` and a bounding `rect` of four string-encoded numbers. -/

structure RetRect where
  height : String
  left : String
  top : String
  width : String
deriving Repr, DecidableEq

structure RetData where
  rect : RetRect
  word : String
deriving Repr, DecidableEq

structure baiduOCRRet where
  errMsg : String
  retData : List RetData
deriving Repr, DecidableEq

/-- The fixed failure phrase used by both variants of `ParseJPEG` when the
service returns zero recognized fragments. -/
def noTextMsg : String := "BaiduOCR failed to recognize any text in the image."

/-- Response-decoding step of the FIRST (historical) variant of `ParseJPEG`
(`baiduocr.go` variant 1, lines 136-153): unmarshal the raw body, fail if the
unmarshaller fails, fail with a descriptive message if `retData` is empty
(appending `" reason: <errMsg>"` when `errMsg` is non-empty), otherwise
accumulate the `word` of every entry in order.  The JSON unmarshaller
(`json.Unmarshal` of the Go stdlib) is passed in as `unmarshal`; the result
pair is (results, err) with `none` standing for Go's nil error. -/
def decodeResponseV1 (unmarshal : List Nat → Except String baiduOCRRet)
    (body : List Nat) : List String × Option String :=
  match unmarshal body with
  | .error e => ([], some e)
  | .ok ret =>
    if ret.retData.length = 0 then
      let msg := noTextMsg
      let msg := if ret.errMsg ≠ "" then msg ++ (" reason: " ++ ret.errMsg) else msg
      ([], some msg)
    else
      (ret.retData.foldl (fun results d => results ++ [d.word]) [], none)

/-- Response-decoding step of the SECOND (current) variant of `ParseJPEG`
(`baiduocr.go` variant 2, lines 383-400).  The Go code is textually the same
as in the first variant; it is transcribed here independently so the two can
be compared. -/
def decodeResponseV2 (unmarshal : List Nat → Except String baiduOCRRet)
    (body : List Nat) : List String × Option String :=
  match unmarshal body with
  | .error e => ([], some e)
  | .ok ret =>
    if ret.retData.length = 0 then
      let msg := noTextMsg
      let msg := if ret.errMsg ≠ "" then msg ++ (" reason: " ++ ret.errMsg) else msg
      ([], some msg)
    else
      (ret.retData.foldl (fun results d => results ++ [d.word]) [], none)

/-! ### Content-type sniffing and dispatch (`ParseImage`) -/

/-- The PNG file signature, the only entry of Go's `net/http` sniffing table
whose content type is `image/png`. -/
def pngMagic : List Nat := [0x89, 0x50, 0x4E, 0x47, 0x0D, 0x0A, 0x1A, 0x0A]

/-- The JPEG file signature, the only entry of Go's `net/http` sniffing table
whose content type is `image/jpeg`. -/
def jpegMagic : List Nat := [0xFF, 0xD8, 0xFF]

/-- Model of Go's `http.DetectContentType` restricted to the three outcomes
the `ParseImage` switch distinguishes.  In the stdlib sniffing table the only
signature returning `image/png` is the exact 8-byte PNG magic and the only
one returning `image/jpeg` is the exact 3-byte JPEG magic; no earlier entry
of the table (HTML tags, `<?xml`, `%PDF-`, BOMs, GIF) can match a buffer
beginning with either magic.  Every other input yields some other MIME
string, which the switch's default arm treats uniformly; we represent that
whole class by `application/octet-stream`.  (The stdlib considers at most the
first 512 bytes, which is irrelevant for these prefixes.) -/
def detectContentType (data : List Nat) : String :=
  if pngMagic.isPrefixOf data then "image/png"
  else if jpegMagic.isPrefixOf data then "image/jpeg"
  else "application/octet-stream"

/-- `OCR.ParseImage` (identical in both variants): sniff the content type of
the raw bytes and dispatch to the PNG path, the JPEG path, or fail with the
unrecognized-format error (results stay nil).  The two paths are passed in as
functions so the dispatch logic itself is isolated. -/
def parseImage (parsePNG parseJPEG : List Nat → List String × Option String)
    (imageBytes : List Nat) : List String × Option String :=
  match detectContentType imageBytes with
  | "image/png" => parsePNG imageBytes
  | "image/jpeg" => parseJPEG imageBytes
  | _ => ([], some "unrecognized image file format")

/-! ### Colors

Go's `color.Color` is an interface whose sole method `RGBA()` returns
alpha-premultiplied 16-bit channels (`uint32` values in `0..0xffff`).  A color
value is represented here by that quadruple. -/

structure GoColor where
  r : Nat
  g : Nat
  b : Nat
  a : Nat
deriving Repr, DecidableEq

/-- The color value `color.RGBA{r, g, b, a}` of the Go stdlib, seen through
its `RGBA()` method: each `uint8` channel `c` yields `c | c<<8 = c * 0x101`.
The `% 256` models the `uint8` field type. -/
def colorRGBA (r g b a : Nat) : GoColor :=
  ⟨(r % 256) * 0x101, (g % 256) * 0x101, (b % 256) * 0x101, (a % 256) * 0x101⟩

/-! ### Option model

Go type `BaiduOCROption` wraps a function mutating a `baiduOCROption` record
through a pointer; the embedding uses a state-passing function.  Names follow
the second (current) variant, including the `SetLanaguageTypeToChinese`
spelling of the source. -/

structure baiduOCROption where
  languageType : String
  pngBackgroundColor : Option GoColor

structure BaiduOCROption where
  f : baiduOCROption → baiduOCROption

def DEFAULT_LANG : String := "CHN_ENG"

def CHINESE : String := "CHN_ENG"

def ENGLISH : String := "ENG"

def JAPANESE : String := "JAP"

def SetLanaguageTypeToChinese : BaiduOCROption :=
  ⟨fun option => { option with languageType := CHINESE }⟩

def SetLanguageTypeToEnglish : BaiduOCROption :=
  ⟨fun option => { option with languageType := ENGLISH }⟩

def SetLanguageTypeToJapanese : BaiduOCROption :=
  ⟨fun option => { option with languageType := JAPANESE }⟩

def SetPNGBackgroundColor (bgColor : GoColor) : BaiduOCROption :=
  ⟨fun option => { option with pngBackgroundColor := some bgColor }⟩

def SetPNGBackgroundColorRGBA (r g b a : Nat) : BaiduOCROption :=
  ⟨fun option => { option with pngBackgroundColor := some (colorRGBA r g b a) }⟩

/-- The option-application loop shared by all entry points:
`for _, option := range options { option.f(&opts) }`. -/
def applyOptions (init : baiduOCROption) (options : List BaiduOCROption) :
    baiduOCROption :=
  options.foldl (fun opts option => option.f opts) init

/-- The initial configuration record of `ParseJPEG`:
`baiduOCROption{languageType: DEFAULT_LANG}` (the background-color field gets
Go's zero value, nil). -/
def parseJPEGInitialOpts : baiduOCROption :=
  { languageType := DEFAULT_LANG, pngBackgroundColor := none }

/-! ### Base64

Model of `base64.StdEncoding.EncodeToString`: standard RFC 4648 alphabet with
`=` padding.  `% 256` models the byte type of the input slice. -/

def base64Chars : List Char :=
  "ABCDEFGHIJKLMNOPQRSTUVWXYZabcdefghijklmnopqrstuvwxyz0123456789+/".toList

def base64CharAt (n : Nat) : Char := base64Chars.getD n 'A'

def base64StdEncode : List Nat → String
  | [] => ""
  | [b1] =>
    String.mk [base64CharAt ((b1 % 256) >>> 2),
               base64CharAt (((b1 % 256) &&& 3) <<< 4), '=', '=']
  | [b1, b2] =>
    String.mk [base64CharAt ((b1 % 256) >>> 2),
               base64CharAt ((((b1 % 256) &&& 3) <<< 4) ||| ((b2 % 256) >>> 4)),
               base64CharAt (((b2 % 256) &&& 15) <<< 2), '=']
  | b1 :: b2 :: b3 :: rest =>
    String.mk [base64CharAt ((b1 % 256) >>> 2),
               base64CharAt ((((b1 % 256) &&& 3) <<< 4) ||| ((b2 % 256) >>> 4)),
               base64CharAt ((((b2 % 256) &&& 15) <<< 2) ||| ((b3 % 256) >>> 6)),
               base64CharAt ((b3 % 256) &&& 63)] ++ base64StdEncode rest

/-! ### Request construction and timeout resolution (`ParseJPEG`, current
variant, lines 325-371) -/

structure OCR where
  APIKey : String
  APIPath : String
  TimeoutInMilliseconds : Int

structure httpRequest where
  method : String
  url : String
  bodyFields : List (String × String)
  headers : List (String × String)
deriving Repr, DecidableEq

/-- Go's `http.Client`; per its documentation a `Timeout` of zero means no
timeout. -/
structure httpClient where
  timeoutNs : Int
deriving Repr, DecidableEq

def neverTimesOut (c : httpClient) : Bool := c.timeoutNs == 0

def defaultAPIPath : String := "http://apis.baidu.com/apistore/idlocr/ocr"

/-- The form body built by `ParseJPEG` as the `url.Values` map; its `Encode`
method emits the keys in sorted order, which is the order of this list. -/
def parseJPEGRequestFields (languageType : String) (imageBytes : List Nat) :
    List (String × String) :=
  [("clientip", "10.10.10.0"),
   ("detecttype", "LocateRecognize"),
   ("fromdevice", "pc"),
   ("image", base64StdEncode imageBytes),
   ("imagetype", "1"),
   ("languagetype", languageType),
   ("sizetype", "small"),
   ("version", "v1")]

/-- The pure request-preparation phase of the current `ParseJPEG`: apply the
options in order, build the form body, resolve the endpoint (default URL when
`APIPath` is empty), set the headers, and resolve the timeout
(`0 ↦ 5000 ms`, `-1 ↦` Go's zero `Duration`, i.e. no timeout, `< -1 ↦`
`panic`, modelled as `Except.error`).  The network call `client.Do(req)`
happens strictly after this phase, only on an `.ok` result, so an `.error`
means no request is ever sent. -/
def parseJPEGPrepare (ocr : OCR) (imageBytes : List Nat)
    (options : List BaiduOCROption) : Except String (httpRequest × httpClient) :=
  let opts := applyOptions parseJPEGInitialOpts options
  let path := if ocr.APIPath.length = 0 then defaultAPIPath else ocr.APIPath
  let req : httpRequest :=
    { method := "POST", url := path,
      bodyFields := parseJPEGRequestFields opts.languageType imageBytes,
      headers := [("content-type", "application/x-www-form-urlencoded"),
                  ("apikey", ocr.APIKey)] }
  if ocr.TimeoutInMilliseconds < -1 then
    .error "TimeoutInMilliseconds must not be less than -1"
  else
    let ms : Int :=
      if ocr.TimeoutInMilliseconds > -1 then
        (if ocr.TimeoutInMilliseconds = 0 then 5000 else ocr.TimeoutInMilliseconds)
      else 0
    .ok (req, { timeoutNs := ms * 1000000 })

/-! ### PNG-to-JPEG normalization (`pngTojpeg`)

`png.Decode` always yields an image whose bounds rectangle is anchored at the
origin, so a decoded image is modelled as a `width × height` grid of colors;
"same bounds" is then equality of widths and heights, and the `image.ZP`
source points of both `draw.Draw` calls make source and destination
coordinates coincide.  An `image.RGBA` buffer stores 8-bit channels; reading
a pixel back through `At(x, y).RGBA()` scales each byte by `0x101`. -/

structure GoImage where
  width : Nat
  height : Nat
  At : Nat → Nat → GoColor

/-- A pixel of an `image.RGBA` buffer: four stored bytes. -/
structure RGBA8 where
  r : Nat
  g : Nat
  b : Nat
  a : Nat
deriving Repr, DecidableEq

/-- `image.NewRGBA(bounds)`: a zero-initialized pixel buffer. -/
def newRGBA (_w _h : Nat) : Nat → Nat → RGBA8 := fun _ _ => ⟨0, 0, 0, 0⟩

/-- One pixel of `draw.Draw(dst, r, &image.Uniform{c}, ZP, draw.Src)` into an
8-bit RGBA buffer: each stored byte is the 16-bit channel shifted down by 8
(the stdlib's `drawFillSrc` fast path). -/
def fillSrcPixel (c : GoColor) : RGBA8 :=
  ⟨c.r >>> 8, c.g >>> 8, c.b >>> 8, c.a >>> 8⟩

/-- `draw.Draw(newImg, bounds, &image.Uniform{c}, image.ZP, draw.Src)`: every
pixel inside the bounds becomes the uniform color; the uniform source has
infinite bounds, so nothing is clipped. -/
def drawUniformSrc (w h : Nat) (buf : Nat → Nat → RGBA8) (c : GoColor) :
    Nat → Nat → RGBA8 :=
  fun x y => if x < w ∧ y < h then fillSrcPixel c else buf x y

/-- Porter-Duff "over" of a source color (16-bit premultiplied channels) onto
one destination pixel of an 8-bit RGBA buffer, as every `Over` path of the
stdlib drawer computes it: with `m = 0xffff` and `a = (m - sa) * 0x101`, each
stored byte becomes `(d8 * a / m + s16) >> 8`. -/
def overPixel (d : RGBA8) (s : GoColor) : RGBA8 :=
  let a := (0xffff - s.a) * 0x101
  ⟨(d.r * a / 0xffff + s.r) >>> 8,
   (d.g * a / 0xffff + s.g) >>> 8,
   (d.b * a / 0xffff + s.b) >>> 8,
   (d.a * a / 0xffff + s.a) >>> 8⟩

/-- `draw.Draw(newImg, bounds, img, image.ZP, draw.Over)`: every pixel inside
the bounds is blended with the source pixel at the same coordinates. -/
def drawImageOver (w h : Nat) (buf : Nat → Nat → RGBA8) (src : GoImage) :
    Nat → Nat → RGBA8 :=
  fun x y => if x < w ∧ y < h then overPixel (buf x y) (src.At x y) else buf x y

/-- Reading an 8-bit RGBA buffer pixel back through the `color.Color`
interface: `RGBA()` of `color.RGBA` scales each byte by `0x101`. -/
def rgba8ToGoColor (p : RGBA8) : GoColor :=
  ⟨p.r * 0x101, p.g * 0x101, p.b * 0x101, p.a * 0x101⟩

/-- The finished `image.RGBA` buffer viewed as an image. -/
def rgbaImage (w h : Nat) (buf : Nat → Nat → RGBA8) : GoImage :=
  ⟨w, h, fun x y => rgba8ToGoColor (buf x y)⟩

/-- The result handed to `jpeg.Encode(buffer, img, &jpeg.Options{100})`: the
image being encoded together with the quality setting. -/
structure JpegEncoded where
  img : GoImage
  quality : Nat

/-- `pngTojpeg` (identical in both variants): decode the PNG (the stdlib
decoder's outcome on the reader is the `decoded` parameter; its error is
returned unchanged); when a background color was supplied, allocate a fresh
RGBA buffer of the same bounds, fill it with the color using `draw.Src`, then
draw the decoded image over it using `draw.Over`, and encode the result as
JPEG at quality 100; with no background color (nil), encode the decoded image
as-is. -/
def pngTojpeg (decoded : Except String GoImage)
    (pngBackgroundColor : Option GoColor) : Except String JpegEncoded :=
  match decoded with
  | .error e => .error e
  | .ok img =>
    let img :=
      match pngBackgroundColor with
      | none => img
      | some c =>
        let buf := newRGBA img.width img.height
        let buf := drawUniformSrc img.width img.height buf c
        let buf := drawImageOver img.width img.height buf img
        rgbaImage img.width img.height buf
    .ok ⟨img, 100⟩

/-! ### Helper lemmas -/

/-- The accumulation loop `results = append(results, data.Word)` over
`ret.RetData` collects exactly the `word` fields in order. -/
theorem foldl_append_words (l : List RetData) (acc : List String) :
    l.foldl (fun results d => results ++ [d.word]) acc
      = acc ++ l.map (fun d => d.word) := by
  induction l generalizing acc with
  | nil => simp
  | cons d l ih => simp [ih]

/-- `len(path) == 0` in Go is emptiness of the string. -/
theorem string_length_eq_zero_iff (s : String) : s.length = 0 ↔ s = "" := by
  cases s with
  | mk data => simp [String.length, List.length_eq_zero, String.ext_iff]

/-! ### Claims -/

/-- C10: the response-decoding step of the two historical variants of
`ParseJPEG` is extensionally equal: for every JSON unmarshaller outcome and
every raw response body, both variants produce the same result sequence and
the same error, message for message. -/
theorem decode_variants_agree :
    ∀ (u : List Nat → Except String baiduOCRRet) (body : List Nat),
      decodeResponseV1 u body = decodeResponseV2 u body :=
  fun _ _ => rfl

/-- C5: whenever the response body unmarshals to a `baiduOCRRet` with a
non-empty `retData` sequence, `ParseJPEG` returns exactly the `word` of each
entry, one per entry, in response order, and no error. -/
theorem parseJPEG_words_in_order (u : List Nat → Except String baiduOCRRet)
    (body : List Nat) (ret : baiduOCRRet)
    (hu : u body = .ok ret) (h : ret.retData ≠ []) :
    decodeResponseV2 u body = (ret.retData.map (fun d => d.word), none) := by
  simp only [decodeResponseV2, hu]
  rw [if_neg (by simpa using h)]
  simp [foldl_append_words]

def abRet : baiduOCRRet :=
  { errMsg := "",
    retData := [{ rect := ⟨"1", "2", "3", "4"⟩, word := "A" },
                { rect := ⟨"5", "6", "7", "8"⟩, word := "B" }] }

/-- Witness for C5 at a concrete response with entries "A" then "B". -/
theorem parseJPEG_words_in_order_witness :
    decodeResponseV2 (fun _ => .ok abRet) [] = (["A", "B"], none) :=
  (parseJPEG_words_in_order (fun _ => .ok abRet) [] abRet rfl (by decide)).trans
    (by decide)

/-- C4: whenever the response body unmarshals to a `baiduOCRRet` with an
empty `retData` sequence, `ParseJPEG` returns no results and an error whose
message starts with the fixed no-text-recognized phrase, and which ends with
the service's `errMsg` verbatim whenever that field is non-empty. -/
theorem parseJPEG_emptyRetData_error (u : List Nat → Except String baiduOCRRet)
    (body : List Nat) (ret : baiduOCRRet)
    (hu : u body = .ok ret) (hempty : ret.retData = []) :
    ∃ msg, decodeResponseV2 u body = ([], some msg)
      ∧ (∃ s, msg = noTextMsg ++ s)
      ∧ (ret.errMsg ≠ "" → ∃ p, msg = p ++ ret.errMsg) := by
  simp only [decodeResponseV2, hu, hempty, List.length_nil, if_pos]
  by_cases he : ret.errMsg = ""
  · exact ⟨noTextMsg, by simp [he], ⟨"", (String.append_empty noTextMsg).symm⟩,
      fun h => absurd he h⟩
  · refine ⟨noTextMsg ++ (" reason: " ++ ret.errMsg), by simp [he],
      ⟨" reason: " ++ ret.errMsg, rfl⟩,
      fun _ => ⟨noTextMsg ++ " reason: ", ?_⟩⟩
    rw [String.append_assoc]

def emptyRet : baiduOCRRet := { errMsg := "image too small", retData := [] }

/-- Witness for C4 at a concrete response with empty `retData` and a
non-empty `errMsg`. -/
theorem parseJPEG_emptyRetData_error_witness :
    ∃ msg, decodeResponseV2 (fun _ => .ok emptyRet) [] = ([], some msg)
      ∧ (∃ s, msg = noTextMsg ++ s)
      ∧ (emptyRet.errMsg ≠ "" → ∃ p, msg = p ++ emptyRet.errMsg) :=
  parseJPEG_emptyRetData_error (fun _ => .ok emptyRet) [] emptyRet rfl rfl

def errMsgRet : baiduOCRRet :=
  { errMsg := "service reported an error",
    retData := [{ rect := ⟨"1", "2", "3", "4"⟩, word := "A" }] }

/-- C6, counterexample: a well-formed response whose `errMsg` is non-empty
but whose `retData` is non-empty does NOT fail — the decoder returns the
words with a nil error, so the claim that a non-empty `errMsg` always yields
a failure is false on the code. -/
theorem decode_errMsg_counterexample :
    errMsgRet.errMsg ≠ "" ∧ errMsgRet.retData ≠ []
    ∧ decodeResponseV2 (fun _ => .ok errMsgRet) [] = (["A"], none) := by
  refine ⟨by decide, by decide, by decide⟩

/-- C6, amended: the response decoder synthesizes a descriptive failure
exactly when the service reports zero results (`retData` empty); the
service's `errMsg` is reported only as part of that failure message, and a
well-formed response with a non-empty `errMsg` but a non-empty `retData`
still succeeds with the recognized words. -/
theorem decode_fail_iff_empty (u : List Nat → Except String baiduOCRRet)
    (body : List Nat) (ret : baiduOCRRet) (hu : u body = .ok ret) :
    ((decodeResponseV2 u body).2 ≠ none ↔ ret.retData = [])
    ∧ (ret.retData ≠ [] →
        decodeResponseV2 u body = (ret.retData.map (fun d => d.word), none))
    ∧ (ret.retData = [] →
        decodeResponseV2 u body
          = ([], some (if ret.errMsg ≠ ""
                        then noTextMsg ++ (" reason: " ++ ret.errMsg)
                        else noTextMsg))) := by
  by_cases hrd : ret.retData = []
  · simp only [decodeResponseV2, hu, hrd, List.length_nil, if_pos]
    refine ⟨by simp, fun h => absurd rfl h, fun _ => ?_⟩
    by_cases he : ret.errMsg = "" <;> simp [he]
  · have hlen : ¬ ret.retData.length = 0 := by simpa using hrd
    simp only [decodeResponseV2, hu, if_neg hlen]
    exact ⟨by simp [hrd], fun _ => by simp [foldl_append_words], fun h => absurd h hrd⟩

def mixedRet : baiduOCRRet :=
  { errMsg := "partial failure",
    retData := [{ rect := ⟨"1", "2", "3", "4"⟩, word := "C" }] }

/-- Witness for the amended C6 at a concrete response. -/
theorem decode_fail_iff_empty_witness :
    ((decodeResponseV2 (fun _ => .ok mixedRet) []).2 ≠ none ↔ mixedRet.retData = [])
    ∧ (mixedRet.retData ≠ [] →
        decodeResponseV2 (fun _ => .ok mixedRet) []
          = (mixedRet.retData.map (fun d => d.word), none))
    ∧ (mixedRet.retData = [] →
        decodeResponseV2 (fun _ => .ok mixedRet) []
          = ([], some (if mixedRet.errMsg ≠ ""
                        then noTextMsg ++ (" reason: " ++ mixedRet.errMsg)
                        else noTextMsg))) :=
  decode_fail_iff_empty (fun _ => .ok mixedRet) [] mixedRet rfl

/-- C3: `ParseImage` dispatches solely on the sniffed content type of the
leading bytes: the PNG path runs exactly when the buffer starts with the PNG
magic, the JPEG path exactly when it does not start with the PNG magic but
starts with the JPEG magic, and every other buffer fails with the
unrecognized-format error and no results.  At most one branch's premise can
hold, so exactly one of the three paths is exercised per call. -/
theorem parseImage_dispatch (p j : List Nat → List String × Option String)
    (bytes : List Nat) :
    (detectContentType bytes = "image/png" ↔ pngMagic.isPrefixOf bytes = true)
    ∧ (detectContentType bytes = "image/jpeg"
        ↔ (pngMagic.isPrefixOf bytes = false ∧ jpegMagic.isPrefixOf bytes = true))
    ∧ (detectContentType bytes = "image/png" → parseImage p j bytes = p bytes)
    ∧ (detectContentType bytes = "image/jpeg" → parseImage p j bytes = j bytes)
    ∧ (detectContentType bytes ≠ "image/png" →
       detectContentType bytes ≠ "image/jpeg" →
        parseImage p j bytes = ([], some "unrecognized image file format")) := by
  unfold parseImage detectContentType
  by_cases hp : pngMagic.isPrefixOf bytes <;>
    by_cases hj : jpegMagic.isPrefixOf bytes <;>
      simp [hp, hj]

/-- Witness for C3: a one-byte buffer matches neither magic, so the call
fails with the unrecognized-format error and empty results. -/
theorem parseImage_dispatch_witness :
    parseImage (fun _ => (["png"], none)) (fun _ => (["jpeg"], none)) [0]
      = ([], some "unrecognized image file format") :=
  (parseImage_dispatch (fun _ => (["png"], none)) (fun _ => (["jpeg"], none))
    [0]).2.2.2.2 (by decide) (by decide)

/-- C8: options are applied to the configuration record strictly in the
order given (running a split list is running the first part, then the second
from the intermediate state), so a later option overrides an earlier one that
sets the same field: appending the Chinese-language option after any options
yields the Chinese code, in particular English-then-Chinese yields Chinese;
and with no options the configuration is language `CHN_ENG` with no
background color set. -/
theorem options_applied_in_order :
    (∀ (init : baiduOCROption) (xs ys : List BaiduOCROption),
        applyOptions init (xs ++ ys) = applyOptions (applyOptions init xs) ys)
    ∧ (∀ opts : List BaiduOCROption,
        (applyOptions parseJPEGInitialOpts
          (opts ++ [SetLanaguageTypeToChinese])).languageType = CHINESE)
    ∧ (applyOptions parseJPEGInitialOpts
        [SetLanguageTypeToEnglish, SetLanaguageTypeToChinese]).languageType
        = CHINESE
    ∧ applyOptions parseJPEGInitialOpts []
        = { languageType := "CHN_ENG", pngBackgroundColor := none } := by
  refine ⟨fun init xs ys => List.foldl_append _ _ _ _, fun opts => ?_, rfl, rfl⟩
  rw [applyOptions, List.foldl_append]
  rfl

/-- C9: for all channel values, the RGBA-channel option builds exactly the
same configuration transformer as the structured-color option applied to the
corresponding `color.RGBA` value: applied to any configuration record, the
two yield identical configurations. -/
theorem setPNGBackgroundColorRGBA_eq_setPNGBackgroundColor
    (r g b a : Nat) (cfg : baiduOCROption) :
    (SetPNGBackgroundColorRGBA r g b a).f cfg
      = (SetPNGBackgroundColor (colorRGBA r g b a)).f cfg :=
  rfl

/-- C2: timeout resolution of the current `ParseJPEG`: a configured value of
0 yields an HTTP client timeout of 5000 milliseconds; -1 yields Go's zero
`Duration`, i.e. a client that never times out; and any value strictly below
-1 panics during preparation, so no request/client pair is ever produced and
no network call is attempted. -/
theorem parseJPEG_timeout (ocr : OCR) (img : List Nat)
    (opts : List BaiduOCROption) :
    (ocr.TimeoutInMilliseconds = 0 →
      ∃ req c, parseJPEGPrepare ocr img opts = .ok (req, c)
        ∧ c.timeoutNs = 5000 * 1000000)
    ∧ (ocr.TimeoutInMilliseconds = -1 →
      ∃ req c, parseJPEGPrepare ocr img opts = .ok (req, c)
        ∧ neverTimesOut c = true)
    ∧ (ocr.TimeoutInMilliseconds < -1 →
      parseJPEGPrepare ocr img opts
        = .error "TimeoutInMilliseconds must not be less than -1") := by
  refine ⟨fun h => ?_, fun h => ?_, fun h => ?_⟩
  · unfold parseJPEGPrepare
    rw [if_neg (by omega)]
    refine ⟨_, _, rfl, ?_⟩
    simp [h]
  · unfold parseJPEGPrepare
    rw [if_neg (by omega)]
    refine ⟨_, _, rfl, ?_⟩
    simp [h, neverTimesOut]
  · unfold parseJPEGPrepare
    rw [if_pos h]

/-- Witness for C2 at three concrete clients: timeout 0, -1 and -2. -/
theorem parseJPEG_timeout_witness :
    (∃ req c, parseJPEGPrepare ⟨"k", "", 0⟩ [] [] = .ok (req, c)
      ∧ c.timeoutNs = 5000 * 1000000)
    ∧ (∃ req c, parseJPEGPrepare ⟨"k", "", -1⟩ [] [] = .ok (req, c)
      ∧ neverTimesOut c = true)
    ∧ parseJPEGPrepare ⟨"k", "", -2⟩ [] []
        = .error "TimeoutInMilliseconds must not be less than -1" :=
  ⟨(parseJPEG_timeout ⟨"k", "", 0⟩ [] []).1 rfl,
   (parseJPEG_timeout ⟨"k", "", -1⟩ [] []).2.1 rfl,
   (parseJPEG_timeout ⟨"k", "", -2⟩ [] []).2.2 (by decide)⟩

/-- C7: for every valid timeout configuration, the prepared request is a
form-urlencoded POST whose body holds exactly the eight fields (in the
key-sorted order `url.Values.Encode` emits): the fixed device, client IP,
detection mode, image type, version and size values, the base64 encoding of
the image bytes, and the configured language code; the headers carry the
form-urlencoded content type and the client's API key; and the URL is the
client's `APIPath`, or the documented default when `APIPath` is empty. -/
theorem parseJPEG_request (ocr : OCR) (img : List Nat)
    (opts : List BaiduOCROption) (h : -1 ≤ ocr.TimeoutInMilliseconds) :
    ∃ req c, parseJPEGPrepare ocr img opts = .ok (req, c)
      ∧ req.method = "POST"
      ∧ req.bodyFields
          = [("clientip", "10.10.10.0"),
             ("detecttype", "LocateRecognize"),
             ("fromdevice", "pc"),
             ("image", base64StdEncode img),
             ("imagetype", "1"),
             ("languagetype", (applyOptions parseJPEGInitialOpts opts).languageType),
             ("sizetype", "small"),
             ("version", "v1")]
      ∧ req.headers = [("content-type", "application/x-www-form-urlencoded"),
                       ("apikey", ocr.APIKey)]
      ∧ req.url = (if ocr.APIPath = "" then defaultAPIPath else ocr.APIPath) := by
  unfold parseJPEGPrepare
  rw [if_neg (by omega)]
  refine ⟨_, _, rfl, rfl, rfl, rfl, ?_⟩
  by_cases hp : ocr.APIPath = ""
  · rw [if_pos hp, if_pos ((string_length_eq_zero_iff _).mpr hp)]
  · rw [if_neg hp, if_neg (fun hl => hp ((string_length_eq_zero_iff _).mp hl))]

/-- Witness for C7 at a concrete client with empty `APIPath`, timeout 0 and
an empty image. -/
theorem parseJPEG_request_witness :
    -1 ≤ (0 : Int)
    ∧ ∃ req c, parseJPEGPrepare ⟨"secret", "", 0⟩ [] [] = .ok (req, c)
      ∧ req.method = "POST"
      ∧ req.bodyFields
          = [("clientip", "10.10.10.0"),
             ("detecttype", "LocateRecognize"),
             ("fromdevice", "pc"),
             ("image", base64StdEncode []),
             ("imagetype", "1"),
             ("languagetype",
              (applyOptions parseJPEGInitialOpts []).languageType),
             ("sizetype", "small"),
             ("version", "v1")]
      ∧ req.headers = [("content-type", "application/x-www-form-urlencoded"),
                       ("apikey", "secret")]
      ∧ req.url = (if ("" : String) = "" then defaultAPIPath else "") :=
  ⟨by decide, parseJPEG_request ⟨"secret", "", 0⟩ [] [] (by decide)⟩

/-- C1: for every decoded PNG image, when a background color is supplied
`pngTojpeg` allocates a buffer of the same bounds, fills it entirely with the
color by source-replace compositing and draws the decoded image over it with
"over" alpha blending — so every in-bounds pixel of the encoded image is the
decoded pixel composited over the background fill — and encodes the result
as JPEG at quality 100; with no background color the decoded image is
encoded as-is, also at quality 100. -/
theorem pngTojpeg_spec (img : GoImage) (c : GoColor) (x y : Nat)
    (hx : x < img.width) (hy : y < img.height) :
    pngTojpeg (.ok img) none = .ok ⟨img, 100⟩
    ∧ ∃ enc, pngTojpeg (.ok img) (some c) = .ok enc
        ∧ enc.quality = 100
        ∧ enc.img.width = img.width
        ∧ enc.img.height = img.height
        ∧ enc.img.At x y
            = rgba8ToGoColor (overPixel (fillSrcPixel c) (img.At x y)) := by
  refine ⟨rfl, _, rfl, rfl, rfl, rfl, ?_⟩
  show (rgbaImage img.width img.height
      (drawImageOver img.width img.height
        (drawUniformSrc img.width img.height
          (newRGBA img.width img.height) c) img)).At x y = _
  simp [rgbaImage, drawImageOver, drawUniformSrc, newRGBA, hx, hy]

def witnessImg : GoImage := ⟨1, 1, fun _ _ => ⟨0x8000, 0x4000, 0, 0x8000⟩⟩

def witnessBg : GoColor := colorRGBA 255 255 255 255

/-- Witness for C1 at a concrete 1-by-1 half-transparent image composited
over a white background. -/
theorem pngTojpeg_spec_witness :
    (0 < witnessImg.width ∧ 0 < witnessImg.height)
    ∧ (pngTojpeg (.ok witnessImg) none = .ok ⟨witnessImg, 100⟩
       ∧ ∃ enc, pngTojpeg (.ok witnessImg) (some witnessBg) = .ok enc
           ∧ enc.quality = 100
           ∧ enc.img.width = witnessImg.width
           ∧ enc.img.height = witnessImg.height
           ∧ enc.img.At 0 0
               = rgba8ToGoColor
                  (overPixel (fillSrcPixel witnessBg) (witnessImg.At 0 0))) :=
  ⟨⟨by decide, by decide⟩,
   pngTojpeg_spec witnessImg witnessBg 0 0 (by decide) (by decide)⟩

end Baiduocr
